import Mathlib

/-
Verification of the ai-travel-agent orchestration layer.

Shallow embedding of:
  * src/tools/logistic_tools.py  (FlightSearchTool, CityToIATATool, POISearchTool)
  * src/main.py                  (TravelAgentOrchestrator)
  * src/core/pydantics.py        (FlightOption, ItineraryPlan)

External collaborators (the Amadeus flight API, the Tavily search API, the
process environment) are modelled as an explicit `Env` record of pure
functions; each tool is a function of that record.  Python exceptions are
modelled with `Except PyErr`; a `.ok` result is a normal return, a `.error`
result is an exception escaping to the caller.  Python strings are Lean
`String`s (lists of unicode scalar values, matching Python's code-point
view of `str`); regex character classes and `str.upper`/`str.strip` are
modelled at ASCII precision, which covers every literal the program builds.
-/

namespace TravelAgent

/-! ## Character-level models of the Python / regex primitives -/

/-- The regex class `[A-Z]` (re module, ASCII range). -/
def isUpperAZ (c : Char) : Bool :=
  decide (65 ≤ c.toNat ∧ c.toNat ≤ 90)

/-- The regex class `\w` used by the word-boundary `\b`
(ASCII fragment: letters, digits, underscore). -/
def isWordChar (c : Char) : Bool :=
  decide ((65 ≤ c.toNat ∧ c.toNat ≤ 90) ∨ (97 ≤ c.toNat ∧ c.toNat ≤ 122) ∨
          (48 ≤ c.toNat ∧ c.toNat ≤ 57) ∨ c.toNat = 95)

/-- The whitespace set of Python `str.strip` (ASCII fragment:
space, tab, newline, carriage return, vertical tab, form feed). -/
def isSpaceChar (c : Char) : Bool :=
  decide (c.toNat = 32 ∨ c.toNat = 9 ∨ c.toNat = 10 ∨ c.toNat = 13 ∨
          c.toNat = 11 ∨ c.toNat = 12)

/-- Python `str.upper` on one character (ASCII fragment). -/
def upperChar (c : Char) : Char :=
  if 97 ≤ c.toNat ∧ c.toNat ≤ 122 then Char.ofNat (c.toNat - 32) else c

/-- Python `str.upper`. -/
def pyUpper (s : String) : String := ⟨s.data.map upperChar⟩

/-- Python `str.strip` on the character list. -/
def stripChars (l : List Char) : List Char :=
  ((l.dropWhile isSpaceChar).reverse.dropWhile isSpaceChar).reverse

/-- Python `str.strip`. -/
def pyStrip (s : String) : String := ⟨stripChars s.data⟩

/-- Python `s[:n]` (slice of the first `n` code points). -/
def pySlice (s : String) (n : Nat) : String := ⟨s.data.take n⟩

/-- Python `str.replace` on character lists: scan left to right, replace every
non-overlapping occurrence of `pat` by `rep`.  `fuel` bounds the recursion;
it is instantiated with the length of the scanned list, which each step
consumes at least one character of.  The program only ever replaces
non-empty patterns (`"PT"`, `"H"`, `"M"`). -/
def replListAux (pat rep : List Char) : Nat → List Char → List Char
  | _, [] => []
  | 0, l => l
  | fuel + 1, c :: cs =>
    if pat.isPrefixOf (c :: cs) && !pat.isEmpty then
      rep ++ replListAux pat rep fuel (cs.drop (pat.length - 1))
    else
      c :: replListAux pat rep fuel cs

/-- Python `s.replace(pat, rep)`. -/
def pyReplace (s pat rep : String) : String :=
  ⟨replListAux pat.data rep.data s.data.length s.data⟩

/-! ## The regex `\b([A-Z]{3})\b` and `re.search`

Both `CityToIATATool._run` (logistic_tools.py:109) and
`TravelAgentOrchestrator._extract_iata_code` (main.py:106) search free text
for the first standalone run of exactly three consecutive uppercase letters,
with a word boundary on each side. -/

/-- Does `\b[A-Z]{3}\b` match in `l` at position `i`?  Out-of-range reads
yield `' '`, which is neither uppercase nor a word character — exactly the
behaviour of the boundary assertion at the ends of the text. -/
def code3At (l : List Char) (i : Nat) : Bool :=
  isUpperAZ (l.getD i ' ') && isUpperAZ (l.getD (i + 1) ' ') &&
  isUpperAZ (l.getD (i + 2) ' ') &&
  (i == 0 || !isWordChar (l.getD (i - 1) ' ')) &&
  !isWordChar (l.getD (i + 3) ' ')

/-- The scan of `re.search`: try position `i`, then `i+1`, … ; `fuel` bounds
the scan and is instantiated with the length of the text. -/
def searchFromAux (l : List Char) : Nat → Nat → Option Nat
  | 0, _ => none
  | fuel + 1, i => if code3At l i then some i else searchFromAux l fuel (i + 1)

/-- `re.search(r'\b([A-Z]{3})\b', s)`: the text of the first match,
or `none` when the pattern does not occur. -/
def findIata (s : String) : Option String :=
  (searchFromAux s.data s.data.length 0).map
    (fun i => String.mk ((s.data.drop i).take 3))

/-- Specification-side reading of §4.1: position `i` of `l` carries a
standalone token of exactly 3 consecutive uppercase letters, delimited by a
word boundary on both sides. -/
def standalone3 (l : List Char) (i : Nat) : Prop :=
  i + 3 ≤ l.length ∧
  (∀ k, i ≤ k → k < i + 3 → isUpperAZ (l.getD k ' ') = true) ∧
  (i = 0 ∨ isWordChar (l.getD (i - 1) ' ') = false) ∧
  (i + 3 = l.length ∨ isWordChar (l.getD (i + 3) ' ') = false)

/-! ## Data model (src/core/pydantics.py) -/

/-- `FlightOption` (pydantics.py:19-23). -/
structure FlightOption where
  price_usd : String
  airline_code : String
  duration : String
deriving DecidableEq, Repr

/-- `ItineraryPlan` (pydantics.py:25-31); `daily_plan` is an
insertion-ordered dict, modelled as an association list. -/
structure ItineraryPlan where
  destination : String
  travel_dates : String
  flights : List FlightOption
  poi_summary : String
  daily_plan : List (String × String)
deriving DecidableEq, Repr

/-! ## The external world -/

/-- A Python exception escaping to the caller. -/
inductive PyErr where
  | typeError
  | keyError
  | indexError
deriving DecidableEq, Repr

/-- One Tavily result (`{'content': ...}`, §6 web-search endpoint). -/
structure SearchItem where
  content : String
deriving DecidableEq, Repr

/-- A Tavily response (`{'results': [...]}`). -/
structure SearchResponse where
  results : List SearchItem
deriving DecidableEq, Repr

/-- The arguments of one `tavily.search` call. -/
structure SearchArgs where
  query : String
  search_depth : String
  max_results : Nat
deriving DecidableEq, Repr

/-- One segment of an Amadeus offer; a missing `carrierCode` key models a
malformed response body. -/
structure Segment where
  carrierCode : Option String
deriving DecidableEq, Repr

/-- One itinerary of an Amadeus offer. -/
structure Itinerary where
  segments : List Segment
  duration : Option String
deriving DecidableEq, Repr

/-- One Amadeus flight offer; `price_total` is `offer['price']['total']`,
absent when either key is missing. -/
structure Offer where
  price_total : Option String
  itineraries : List Itinerary
deriving DecidableEq, Repr

/-- The JSON body of a successful flight-offers response; `data` is absent
when the `'data'` key is missing. -/
structure FlightBody where
  data : Option (List Offer)
deriving DecidableEq, Repr

/-- Outcome of the `requests.get` against the offers endpoint:
a body, or a `requests.exceptions.RequestException`. -/
inductive FlightApiOutcome where
  | ok (body : FlightBody)
  | requestError (msg : String)
deriving DecidableEq, Repr

/-- The query parameters of the offers request (logistic_tools.py:51-59). -/
structure FlightQuery where
  originLocationCode : String
  destinationLocationCode : String
  departureDate : String
  returnDate : String
  adults : Nat
  maxOffers : Nat
  currencyCode : String
deriving DecidableEq, Repr

/-- The environment of one run: the configured secrets and the two external
providers, as pure request→response functions. -/
structure Env where
  /-- `os.getenv('TAVILY_API_KEY')`. -/
  tavilyKey : Option String
  /-- `tavily.search(...)`; `.error` is a raised exception, carrying its text. -/
  search : SearchArgs → Except String SearchResponse
  /-- Outcome of `get_amadeus_token()`: a token, or a raised exception
  (missing `AMADEUS_CLIENT_*` credentials or a failed auth call). -/
  amadeusToken : Except String String
  /-- `requests.get` against the flight-offers endpoint. -/
  flightApi : FlightQuery → FlightApiOutcome

/-- Python truthiness of `tavily.api_key` (`None` and `""` are falsy). -/
def truthy : Option String → Bool
  | none => false
  | some s => !s.data.isEmpty

/-! ## The tools (src/tools/logistic_tools.py) -/

/-- The dict appended per offer (logistic_tools.py:73-77). -/
structure FlightDict where
  price_usd : String
  airline_code : String
  duration : String
deriving DecidableEq, Repr

/-- Duration reformatting (logistic_tools.py:71):
`duration.replace('PT', '').replace('H', 'h ').replace('M', 'm')`. -/
def formatDuration (d : String) : String :=
  pyReplace (pyReplace (pyReplace d "PT" "") "H" "h ") "M" "m"

/-- Field extraction for one offer (logistic_tools.py:69-77), in source
evaluation order; a missing key raises `KeyError`, indexing an empty list
raises `IndexError`, and neither is caught by the tool's
`except requests.exceptions.RequestException` clause. -/
def parseOffer (o : Offer) : Except PyErr FlightDict := do
  let price ← match o.price_total with
    | some p => Except.ok p
    | none => Except.error PyErr.keyError
  let itin ← match o.itineraries with
    | i :: _ => Except.ok i
    | [] => Except.error PyErr.indexError
  let seg ← match itin.segments with
    | s :: _ => Except.ok s
    | [] => Except.error PyErr.indexError
  let cc ← match seg.carrierCode with
    | some c => Except.ok c
    | none => Except.error PyErr.keyError
  let dur ← match itin.duration with
    | some d => Except.ok d
    | none => Except.error PyErr.keyError
  Except.ok ⟨price, cc, formatDuration dur⟩

/-- The offer loop of logistic_tools.py:66-77: process `data['data']` in
order, accumulating one dict per offer; the first exception raised while
picking an offer apart escapes. -/
def parseOffers : List Offer → Except PyErr (List FlightDict)
  | [] => Except.ok []
  | o :: os =>
    match parseOffer o with
    | Except.error e => Except.error e
    | Except.ok d =>
      match parseOffers os with
      | Except.error e => Except.error e
      | Except.ok ds => Except.ok (d :: ds)

/-- The string returned when the provider has no matching offers
(logistic_tools.py:80). -/
def noOffersMsg : String :=
  "No real-time flight offers found for the specified criteria. The LLM should proceed to the next planning step."

/-- The result string of `FlightSearchTool._run`.  In the source both arms
are `str`: `message` holds an English sentence, `offers` holds
`json.dumps(offers)`.  The split records which of the two the string is;
`json.loads` in the orchestrator succeeds exactly on the `offers` arm. -/
inductive FlightToolResult where
  | message (s : String)
  | offers (l : List FlightDict)
deriving DecidableEq, Repr

/-- The offers request built at logistic_tools.py:51-59: codes upper-cased
defensively, one adult, at most 3 offers, USD. -/
def mkFlightQuery (departure_iata arrival_iata start_date end_date : String) : FlightQuery :=
  ⟨pyUpper departure_iata, pyUpper arrival_iata, start_date, end_date, 1, 3, "USD"⟩

/-- `FlightSearchTool._run` (logistic_tools.py:41-85).  Auth failures and
`RequestException`s are converted to strings; exceptions raised while
picking the offers apart (malformed body) escape. -/
def FlightSearchTool_run (env : Env) (departure_iata arrival_iata start_date end_date : String) :
    Except PyErr FlightToolResult :=
  match env.amadeusToken with
  | Except.error e => Except.ok (FlightToolResult.message ("Error obtaining Amadeus token: " ++ e))
  | Except.ok _token =>
    match env.flightApi (mkFlightQuery departure_iata arrival_iata start_date end_date) with
    | FlightApiOutcome.requestError e =>
      Except.ok (FlightToolResult.message ("Amadeus API Request Failed: " ++ e))
    | FlightApiOutcome.ok body =>
      match (match body.data with
             | none => Except.ok []
             | some data => parseOffers data : Except PyErr (List FlightDict)) with
      | Except.error e => Except.error e
      | Except.ok [] => Except.ok (FlightToolResult.message noOffersMsg)
      | Except.ok offers => Except.ok (FlightToolResult.offers offers)

/-- The search call of `CityToIATATool._run` (logistic_tools.py:100-101). -/
def iataSearchArgs (city_name : String) : SearchArgs :=
  ⟨"IATA airport code " ++ city_name, "basic", 1⟩

/-- `CityToIATATool._run` (logistic_tools.py:94-120).  Returns the result
string and the list of search calls issued.  Every branch after the key
check sits inside `try ... except Exception`, so no exception escapes. -/
def CityToIATATool_run (env : Env) (city_name : String) :
    Except PyErr String × List SearchArgs :=
  if !truthy env.tavilyKey then
    (Except.ok "TAVILY_API_KEY is missing. Cannot perform IATA lookup.", [])
  else
    match env.search (iataSearchArgs city_name) with
    | Except.error e =>
      (Except.ok ("Error during IATA lookup: " ++ e), [iataSearchArgs city_name])
    | Except.ok resp =>
      match resp.results with
      | [] =>
        (Except.ok ("Could not find IATA code for " ++ city_name ++ " via search."),
         [iataSearchArgs city_name])
      | r :: _ =>
        if r.content.data.isEmpty then
          (Except.ok ("Could not find IATA code for " ++ city_name ++ " via search."),
           [iataSearchArgs city_name])
        else
          match findIata r.content with
          | some iata_code => (Except.ok iata_code, [iataSearchArgs city_name])
          | none =>
            (Except.ok ("Could not extract IATA code from search results for " ++ city_name ++ "."),
             [iataSearchArgs city_name])

/-- The query of `POISearchTool._run` (logistic_tools.py:135). -/
def poiQuery (city_name : String) : String :=
  "Top 5 must-see tourist attractions, best restaurants, and recommended itinerary for a 7-day trip to "
  ++ city_name ++ ". Focus on names and descriptions."

/-- The search call of `POISearchTool._run` (logistic_tools.py:137). -/
def poiSearchArgs (city_name : String) : SearchArgs :=
  ⟨poiQuery city_name, "advanced", 5⟩

/-- `POISearchTool._run` (logistic_tools.py:129-144).  Returns the result
string and the list of search calls issued. -/
def POISearchTool_run (env : Env) (city_name : String) :
    Except PyErr String × List SearchArgs :=
  if !truthy env.tavilyKey then
    (Except.ok "TAVILY_API_KEY is missing. Cannot perform POI search.", [])
  else
    match env.search (poiSearchArgs city_name) with
    | Except.error e => (Except.ok ("Error during POI search: " ++ e), [poiSearchArgs city_name])
    | Except.ok resp =>
      (Except.ok ("Web Search Results for POIs:\n" ++
                  String.intercalate "\n---\n" (resp.results.map SearchItem.content)),
       [poiSearchArgs city_name])

/-! ## The orchestrator (src/main.py) -/

/-- `TravelAgentOrchestrator._extract_iata_code` (main.py:94-107):
`re.search(r'\b([A-Z]{3})\b', result.strip().upper())`, the matched text or
`""`. -/
def extract_iata_code (result : String) : String :=
  match findIata (pyUpper (pyStrip result)) with
  | some code => code
  | none => ""

/-- `json.loads` applied to the flight tool's string (main.py:86-92): the
offers payload parses back to the list it serialises; every message string
is not JSON, raises `json.JSONDecodeError`, and yields `[]`. -/
def loadsToolResult : FlightToolResult → List FlightDict
  | FlightToolResult.message _ => []
  | FlightToolResult.offers l => l

/-- `TravelAgentOrchestrator.search_flights` (main.py:46-92). -/
def search_flights (env : Env) (departure_city arrival_city start_date end_date : String) :
    Except PyErr (List FlightDict) :=
  match (CityToIATATool_run env departure_city).1 with
  | Except.error e => Except.error e
  | Except.ok depResult =>
    match (CityToIATATool_run env arrival_city).1 with
    | Except.error e => Except.error e
    | Except.ok arrResult =>
      let departure_iata := extract_iata_code depResult
      let arrival_iata := extract_iata_code arrResult
      if departure_iata.data.isEmpty || arrival_iata.data.isEmpty then
        Except.ok []
      else
        match FlightSearchTool_run env departure_iata arrival_iata start_date end_date with
        | Except.error e => Except.error e
        | Except.ok toolResult => Except.ok (loadsToolResult toolResult)

/-- A date argument of `plan_trip`: the documented interface passes `str`
values; the `isinstance` check at main.py:168 also distinguishes
`datetime.date` objects, modelled by their ordinal. -/
inductive DateArg where
  | str (s : String)
  | pydate (ordinal : Int)
deriving DecidableEq, Repr

/-- `str()`/f-string rendering of a date argument. -/
def dateArgStr : DateArg → String
  | DateArg.str s => s
  | DateArg.pydate n => toString n

/-- main.py:168:
`trip_duration = (end_date - start_date).days if isinstance(start_date, str) else 7`.
When `start_date` is a `str` the condition is true and the subtraction has a
`str` operand, which raises `TypeError`; when it is not a `str`, the literal
`7` is used. -/
def tripDuration (start_date _end_date : DateArg) : Except PyErr Int :=
  match start_date with
  | DateArg.str _ => Except.error PyErr.typeError
  | DateArg.pydate _ => Except.ok 7

/-- main.py:161-164: `FlightOption(price_usd=flight.get('price_usd','N/A'), ...)`;
the tool's payload always carries the three keys, so the `.get` defaults
never fire. -/
def flightOptionOfDict (d : FlightDict) : FlightOption :=
  ⟨d.price_usd, d.airline_code, d.duration⟩

/-- The POI truncation at main.py:181:
`poi_info[:500] + "..." if len(poi_info) > 500 else poi_info`. -/
def truncPoi (poi_info : String) : String :=
  if 500 < poi_info.length then pySlice poi_info 500 ++ "..." else poi_info

/-- The fixed placeholder daily plan (main.py:169-174). -/
def dailyPlanFor (arrival_city : String) : List (String × String) :=
  [("Day 1", "Arrive in " ++ arrival_city ++ ", check-in, rest and explore nearby areas"),
   ("Day 2-5", "Visit major attractions and landmarks"),
   ("Day 6", "Shopping and local cuisine exploration"),
   ("Day 7", "Last-minute sightseeing and departure preparation")]

/-- The assembly of the final record (main.py:155-183, except the
trip-duration line): keep at most the first 3 flight dicts in order, truncate
the POI text, attach the placeholder plan. -/
def assemble (arrival_city travel_dates : String) (flights : List FlightDict)
    (poi_info : String) : ItineraryPlan :=
  { destination := arrival_city
    travel_dates := travel_dates
    flights := if flights.isEmpty then [] else (flights.take 3).map flightOptionOfDict
    poi_summary := truncPoi poi_info
    daily_plan := dailyPlanFor arrival_city }

/-- `TravelAgentOrchestrator.plan_trip` (main.py:127-186).  The source
computes `flight_options` (pure) before the trip-duration line; the
assembly here happens after it, which only matters when that line raises. -/
def plan_trip (env : Env) (departure_city arrival_city : String)
    (start_date end_date : DateArg) : Except PyErr ItineraryPlan :=
  match search_flights env departure_city arrival_city (dateArgStr start_date) (dateArgStr end_date) with
  | Except.error e => Except.error e
  | Except.ok flights =>
    match (POISearchTool_run env arrival_city).1 with
    | Except.error e => Except.error e
    | Except.ok poi_info =>
      match tripDuration start_date end_date with
      | Except.error e => Except.error e
      | Except.ok _trip_duration =>
        Except.ok (assemble arrival_city
          (dateArgStr start_date ++ " to " ++ dateArgStr end_date) flights poi_info)

/-- Is an `Except` a normal return (no exception)? -/
def isOkE {ε α : Type} : Except ε α → Bool
  | Except.ok _ => true
  | Except.error _ => false

/-- A well-formed Amadeus offer: all the fields the tool reads are present
(price total, a first itinerary with a first segment carrying a carrier
code, and a duration). -/
def wfOffer (o : Offer) : Bool :=
  o.price_total.isSome &&
  (match o.itineraries with
   | [] => false
   | itin :: _ =>
     (match itin.segments with
      | [] => false
      | seg :: _ => seg.carrierCode.isSome) && itin.duration.isSome)

/-! ## Concrete runs used by the closed theorems below -/

/-- A fully healthy run: the key is configured, every search returns one
result whose content carries the code `BCN`, auth succeeds, and the flight
provider returns one well-formed offer. -/
def envDemo : Env :=
  { tavilyKey := some "key"
    search := fun _ => Except.ok ⟨[⟨"BCN airport info"⟩]⟩
    amadeusToken := Except.ok "token"
    flightApi := fun _ =>
      FlightApiOutcome.ok ⟨some [⟨some "500.00", [⟨[⟨some "UA"⟩], some "PT10H30M"⟩]⟩]⟩ }

/-- A run in which the search provider finds nothing (so the Location
Resolver returns its failure sentinel) while the flight provider is healthy
and would answer any query with one well-formed offer. -/
def envC2 : Env :=
  { tavilyKey := some "key"
    search := fun _ => Except.ok ⟨[]⟩
    amadeusToken := Except.ok "token"
    flightApi := fun _ =>
      FlightApiOutcome.ok ⟨some [⟨some "500.00", [⟨[⟨some "UA"⟩], some "PT10H30M"⟩]⟩]⟩ }

/-- A run in which auth succeeds and the flight provider answers with a
well-formed HTTP response whose single offer is missing its `price` field. -/
def envC3bad : Env :=
  { tavilyKey := some "key"
    search := fun _ => Except.ok ⟨[⟨"JFK"⟩]⟩
    amadeusToken := Except.ok "token"
    flightApi := fun _ => FlightApiOutcome.ok ⟨some [⟨none, [⟨[⟨some "UA"⟩], some "PT7H"⟩]⟩]⟩ }

/-- A run whose flight call fails at transport level (so no offer is ever
picked apart). -/
def envC3wit : Env :=
  { tavilyKey := some "key"
    search := fun _ => Except.ok ⟨[⟨"JFK"⟩]⟩
    amadeusToken := Except.ok "token"
    flightApi := fun _ => FlightApiOutcome.requestError "connection reset" }

/-- Four well-formed offers, more than the three the plan keeps. -/
def offers4 : List Offer :=
  [⟨some "100.00", [⟨[⟨some "AA"⟩], some "PT5H"⟩]⟩,
   ⟨some "200.00", [⟨[⟨some "BA"⟩], some "PT6H"⟩]⟩,
   ⟨some "300.00", [⟨[⟨some "CA"⟩], some "PT7H"⟩]⟩,
   ⟨some "400.00", [⟨[⟨some "DA"⟩], some "PT8H"⟩]⟩]

/-- What the tool extracts from `offers4`, in the provider's order. -/
def parsed4 : List FlightDict :=
  [⟨"100.00", "AA", "5h "⟩, ⟨"200.00", "BA", "6h "⟩,
   ⟨"300.00", "CA", "7h "⟩, ⟨"400.00", "DA", "8h "⟩]

/-- A run whose flight provider returns the four offers of `offers4`. -/
def envC8 : Env :=
  { tavilyKey := some "key"
    search := fun _ => Except.ok ⟨[⟨"JFK"⟩]⟩
    amadeusToken := Except.ok "token"
    flightApi := fun _ => FlightApiOutcome.ok ⟨some offers4⟩ }

/-- A run with no `TAVILY_API_KEY` configured. -/
def envNoKey : Env :=
  { tavilyKey := none
    search := fun _ => Except.error "never reached"
    amadeusToken := Except.error "no credentials"
    flightApi := fun _ => FlightApiOutcome.requestError "never reached" }

/-- A run whose search provider responds successfully with zero results. -/
def envC10 : Env :=
  { tavilyKey := some "key"
    search := fun _ => Except.ok ⟨[]⟩
    amadeusToken := Except.error "no credentials"
    flightApi := fun _ => FlightApiOutcome.requestError "never reached" }

/-! ## Helper lemmas: characters and `str.upper` -/

theorem toNat_ofNat_valid (n : Nat) (h : n < 55296) : (Char.ofNat n).toNat = n := by
  rw [Char.ofNat, dif_pos (Or.inl h)]
  rfl

theorem toNat_upperChar (c : Char) :
    (upperChar c).toNat = if 97 ≤ c.toNat ∧ c.toNat ≤ 122 then c.toNat - 32 else c.toNat := by
  unfold upperChar
  split
  case isTrue h => exact toNat_ofNat_valid _ (by omega)
  case isFalse h => rfl

theorem upperChar_idem (c : Char) : upperChar (upperChar c) = upperChar c := by
  have h1 := toNat_upperChar c
  have hnot : ¬(97 ≤ (upperChar c).toNat ∧ (upperChar c).toNat ≤ 122) := by
    by_cases h : 97 ≤ c.toNat ∧ c.toNat ≤ 122
    · rw [if_pos h] at h1; omega
    · rw [if_neg h] at h1; omega
  conv_lhs => rw [upperChar]
  rw [if_neg hnot]

theorem isSpaceChar_upperChar (c : Char) : isSpaceChar (upperChar c) = isSpaceChar c := by
  unfold isSpaceChar
  rw [toNat_upperChar]
  split
  case isTrue h => simp only [decide_eq_decide]; omega
  case isFalse h => rfl

theorem dropWhile_congrB {α : Type} (p q : α → Bool) (l : List α) (h : ∀ a ∈ l, p a = q a) :
    l.dropWhile p = l.dropWhile q := by
  induction l with
  | nil => rfl
  | cons a l ih =>
    rw [List.dropWhile_cons, List.dropWhile_cons, h a (List.mem_cons_self a l)]
    split
    · exact ih (fun b hb => h b (List.mem_cons_of_mem a hb))
    · rfl

theorem stripChars_map_upperChar (l : List Char) :
    stripChars (l.map upperChar) = (stripChars l).map upperChar := by
  unfold stripChars
  have hp : ∀ l' : List Char, l'.dropWhile (isSpaceChar ∘ upperChar) = l'.dropWhile isSpaceChar :=
    fun l' => dropWhile_congrB _ _ l' (fun c _ => isSpaceChar_upperChar c)
  rw [List.dropWhile_map, hp, ← List.map_reverse, List.dropWhile_map, hp, ← List.map_reverse]

theorem map_upperChar_idem (l : List Char) :
    (l.map upperChar).map upperChar = l.map upperChar := by
  rw [List.map_map]
  exact List.map_congr_left (fun c _ => upperChar_idem c)

/-! ## Helper lemmas: the `\b([A-Z]{3})\b` search -/

theorem code3At_bound {l : List Char} {i : Nat} (h : code3At l i = true) : i + 3 ≤ l.length := by
  unfold code3At at h
  simp only [Bool.and_eq_true] at h
  obtain ⟨⟨⟨⟨h1, h2⟩, h3⟩, h4⟩, h5⟩ := h
  by_contra hlen
  have hle : l.length ≤ i + 2 := by omega
  rw [List.getD_eq_default _ _ hle] at h3
  exact absurd h3 (by decide)

theorem code3At_iff {l : List Char} {i : Nat} : code3At l i = true ↔ standalone3 l i := by
  constructor
  · intro h
    have hlen := code3At_bound h
    unfold code3At at h
    simp only [Bool.and_eq_true, Bool.or_eq_true, beq_iff_eq, Bool.not_eq_true'] at h
    obtain ⟨⟨⟨⟨h1, h2⟩, h3⟩, h4⟩, h5⟩ := h
    refine ⟨hlen, ?_, h4, Or.inr h5⟩
    intro k hk1 hk2
    have : k = i ∨ k = i + 1 ∨ k = i + 2 := by omega
    rcases this with rfl | rfl | rfl
    · exact h1
    · exact h2
    · exact h3
  · rintro ⟨hlen, hup, hleft, hright⟩
    unfold code3At
    simp only [Bool.and_eq_true, Bool.or_eq_true, beq_iff_eq, Bool.not_eq_true']
    refine ⟨⟨⟨⟨hup i (Nat.le_refl i) (by omega), hup (i + 1) (by omega) (by omega)⟩,
      hup (i + 2) (by omega) (by omega)⟩, hleft⟩, ?_⟩
    rcases hright with h | h
    · rw [List.getD_eq_default _ _ (by omega)]
      decide
    · exact h

theorem code3At_false_iff {l : List Char} {i : Nat} :
    code3At l i = false ↔ ¬ standalone3 l i := by
  rw [← code3At_iff]
  constructor
  · intro h hc
    rw [h] at hc
    exact Bool.false_ne_true hc
  · exact Bool.eq_false_iff.mpr

theorem searchFromAux_some {l : List Char} :
    ∀ fuel i k, searchFromAux l fuel i = some k →
      code3At l k = true ∧ i ≤ k ∧ (∀ j, i ≤ j → j < k → code3At l j = false) := by
  intro fuel
  induction fuel with
  | zero => intro i k h; exact absurd h (by simp [searchFromAux])
  | succ fuel ih =>
    intro i k h
    simp only [searchFromAux] at h
    by_cases hc : code3At l i
    · rw [if_pos hc] at h
      obtain rfl : i = k := by injection h
      exact ⟨hc, Nat.le_refl i, fun j hj1 hj2 => by omega⟩
    · rw [if_neg hc] at h
      obtain ⟨h1, h2, h3⟩ := ih (i + 1) k h
      refine ⟨h1, by omega, fun j hj1 hj2 => ?_⟩
      by_cases hji : j = i
      · subst hji
        exact Bool.eq_false_iff.mpr hc
      · exact h3 j (by omega) hj2

theorem searchFromAux_eq_some {l : List Char} :
    ∀ fuel i k, code3At l k = true → i ≤ k → k < i + fuel →
      (∀ j, i ≤ j → j < k → code3At l j = false) →
      searchFromAux l fuel i = some k := by
  intro fuel
  induction fuel with
  | zero => intro i k _ _ h _; omega
  | succ fuel ih =>
    intro i k hk hik hlt hmin
    simp only [searchFromAux]
    by_cases hc : code3At l i
    · have hik' : i = k := by
        by_contra hne
        have := hmin i (Nat.le_refl i) (by omega)
        rw [this] at hc
        exact Bool.false_ne_true hc
      rw [if_pos hc, hik']
    · rw [if_neg hc]
      have hik' : i + 1 ≤ k := by
        rcases Nat.eq_or_lt_of_le hik with rfl | h'
        · exact absurd hk (by simpa using hc)
        · omega
      exact ih (i + 1) k hk hik' (by omega) (fun j hj1 hj2 => hmin j (by omega) hj2)

theorem searchFromAux_eq_none {l : List Char} :
    ∀ fuel i, (∀ j, i ≤ j → code3At l j = false) → searchFromAux l fuel i = none := by
  intro fuel
  induction fuel with
  | zero => intro i _; rfl
  | succ fuel ih =>
    intro i h
    simp only [searchFromAux]
    rw [if_neg (by simp [h i (Nat.le_refl i)])]
    exact ih (i + 1) (fun j hj => h j (by omega))

theorem searchFromAux_none_forall {l : List Char} :
    ∀ fuel i, searchFromAux l fuel i = none → ∀ j, i ≤ j → j < i + fuel → code3At l j = false := by
  intro fuel
  induction fuel with
  | zero => intro i _ j _ _; omega
  | succ fuel ih =>
    intro i h j hj1 hj2
    simp only [searchFromAux] at h
    by_cases hc : code3At l i
    · rw [if_pos hc] at h; exact absurd h (by simp)
    · rw [if_neg hc] at h
      by_cases hji : j = i
      · subst hji; exact Bool.eq_false_iff.mpr hc
      · exact ih (i + 1) h j (by omega) (by omega)

theorem findIata_eq_some_iff (s t : String) :
    findIata s = some t ↔
      ∃ i, code3At s.data i = true ∧ (∀ j, j < i → code3At s.data j = false) ∧
           t = String.mk ((s.data.drop i).take 3) := by
  unfold findIata
  constructor
  · intro h
    cases hs : searchFromAux s.data s.data.length 0 with
    | none => rw [hs] at h; exact absurd h (by simp)
    | some k =>
      rw [hs] at h
      simp only [Option.map_some'] at h
      obtain ⟨h1, _, h3⟩ := searchFromAux_some _ _ _ hs
      exact ⟨k, h1, fun j hj => h3 j (Nat.zero_le j) hj, by injection h with h; exact h.symm⟩
  · rintro ⟨i, hi, hmin, rfl⟩
    have hlen : i + 3 ≤ s.data.length := code3At_bound hi
    rw [searchFromAux_eq_some s.data.length 0 i hi (Nat.zero_le i) (by omega)
      (fun j _ hj2 => hmin j hj2)]
    rfl

theorem findIata_eq_none_iff (s : String) :
    findIata s = none ↔ ∀ i, code3At s.data i = false := by
  unfold findIata
  constructor
  · intro h i
    cases hs : searchFromAux s.data s.data.length 0 with
    | some k => rw [hs] at h; exact absurd h (by simp)
    | none =>
      by_cases hI : i + 3 ≤ s.data.length
      · exact searchFromAux_none_forall _ _ hs i (Nat.zero_le i) (by omega)
      · by_contra hc
        have := code3At_bound (by simpa using hc)
        omega
  · intro h
    rw [searchFromAux_eq_none _ 0 (fun j _ => h j)]
    rfl

/-! ## Helper lemmas: `str.replace` and the duration token -/

theorem digit_ne {c : Char} (hc : c.isDigit = true) {d : Char} (hd : d.isDigit = false) :
    c ≠ d := by
  intro he
  subst he
  rw [hc] at hd
  cases hd

theorem replListAux_no_head (p : Char) (pt rep : List Char) :
    ∀ fuel l, l.length ≤ fuel → (∀ c ∈ l, c ≠ p) → replListAux (p :: pt) rep fuel l = l := by
  intro fuel
  induction fuel with
  | zero =>
    intro l hl _
    cases l with
    | nil => rfl
    | cons c cs => simp at hl
  | succ fuel ih =>
    intro l hl hp
    cases l with
    | nil => rfl
    | cons c cs =>
      have hpc : (p == c) = false :=
        beq_eq_false_iff_ne.mpr (fun he => hp c (List.mem_cons_self c cs) he.symm)
      simp only [replListAux, List.isPrefixOf, hpc, Bool.false_and, if_neg, Bool.false_eq_true,
        not_false_eq_true, if_false]
      exact congrArg (c :: ·) (ih cs (by simpa using Nat.le_of_succ_le_succ hl)
        (fun b hb => hp b (List.mem_cons_of_mem c hb)))

theorem replListAux_single (p : Char) (rep : List Char) :
    ∀ fuel l, l.length ≤ fuel →
      replListAux [p] rep fuel l = l.flatMap (fun c => if c = p then rep else [c]) := by
  intro fuel
  induction fuel with
  | zero =>
    intro l hl
    cases l with
    | nil => rfl
    | cons c cs => simp at hl
  | succ fuel ih =>
    intro l hl
    cases l with
    | nil => rfl
    | cons c cs =>
      have hlen : cs.length ≤ fuel := by simpa using Nat.le_of_succ_le_succ hl
      simp only [replListAux, List.flatMap_cons]
      by_cases hpc : c = p
      · subst hpc
        have hcond : (List.isPrefixOf [c] (c :: cs) && !List.isEmpty [c]) = true := by
          simp [List.isPrefixOf]
        rw [if_pos hcond, if_pos rfl]
        have hdrop : cs.drop ([c].length - 1) = cs := by simp
        rw [hdrop, ih cs hlen]
      · have hcond : ¬((List.isPrefixOf [p] (c :: cs) && !List.isEmpty [p]) = true) := by
          simp [List.isPrefixOf]
          exact fun he => absurd he.symm hpc
        rw [if_neg hcond, if_neg hpc, ih cs hlen]
        rfl

theorem flatMap_id_of {α : Type} (f : α → List α) (l : List α) (h : ∀ c ∈ l, f c = [c]) :
    l.flatMap f = l := by
  induction l with
  | nil => rfl
  | cons a l ih =>
    rw [List.flatMap_cons, h a (List.mem_cons_self a l),
      ih (fun c hc => h c (List.mem_cons_of_mem a hc))]
    rfl

theorem replListAux_PT (rest : List Char) (fuel : Nat) (hf : rest.length + 2 ≤ fuel)
    (hp : ∀ c ∈ rest, c ≠ 'P') :
    replListAux ['P', 'T'] [] fuel ('P' :: 'T' :: rest) = rest := by
  cases fuel with
  | zero => omega
  | succ fuel =>
    have hcond :
        (List.isPrefixOf ['P', 'T'] ('P' :: 'T' :: rest) && !List.isEmpty ['P', 'T']) = true := by
      simp [List.isPrefixOf]
    simp only [replListAux]
    rw [if_pos hcond]
    have hdrop : ('T' :: rest).drop (['P', 'T'].length - 1) = rest := by simp
    rw [hdrop]
    exact replListAux_no_head 'P' ['T'] [] fuel rest (by omega) hp

theorem formatDuration_token (hs ms : String) (hh : ∀ c ∈ hs.data, c.isDigit = true)
    (hm : ∀ c ∈ ms.data, c.isDigit = true) :
    formatDuration ("PT" ++ hs ++ "H" ++ ms ++ "M") = hs ++ "h " ++ ms ++ "m" := by
  have hdata : ("PT" ++ hs ++ "H" ++ ms ++ "M").data
      = 'P' :: 'T' :: (hs.data ++ 'H' :: (ms.data ++ ['M'])) := by
    simp [String.data_append]
  have hrest : ∀ c ∈ hs.data ++ 'H' :: (ms.data ++ ['M']), c ≠ 'P' := by
    intro c hc
    simp only [List.mem_append, List.mem_cons] at hc
    rcases hc with hc | hc | hc | hc
    · exact digit_ne (hh c hc) (by decide)
    · subst hc; decide
    · exact digit_ne (hm c hc) (by decide)
    · rcases hc with hc | hc
      · subst hc; decide
      · exact absurd hc (List.not_mem_nil c)
  have e1 : pyReplace ("PT" ++ hs ++ "H" ++ ms ++ "M") "PT" ""
      = ⟨hs.data ++ 'H' :: (ms.data ++ ['M'])⟩ := by
    apply congrArg String.mk
    rw [show ("PT" : String).data = ['P', 'T'] from rfl, show ("" : String).data = [] from rfl,
      hdata]
    exact replListAux_PT _ _ (by simp) hrest
  have e2 : pyReplace (⟨hs.data ++ 'H' :: (ms.data ++ ['M'])⟩ : String) "H" "h "
      = ⟨hs.data ++ 'h' :: ' ' :: (ms.data ++ ['M'])⟩ := by
    apply congrArg String.mk
    rw [show ("H" : String).data = ['H'] from rfl, show ("h " : String).data = ['h', ' '] from rfl]
    rw [replListAux_single 'H' ['h', ' '] _ _ (Nat.le_refl _)]
    rw [List.flatMap_append, List.flatMap_cons, List.flatMap_append,
      flatMap_id_of _ _ (fun c hc => if_neg (digit_ne (hh c hc) (by decide))),
      flatMap_id_of _ _ (fun c hc => if_neg (digit_ne (hm c hc) (by decide)))]
    simp
  have e3 : pyReplace (⟨hs.data ++ 'h' :: ' ' :: (ms.data ++ ['M'])⟩ : String) "M" "m"
      = ⟨hs.data ++ 'h' :: ' ' :: (ms.data ++ ['m'])⟩ := by
    apply congrArg String.mk
    rw [show ("M" : String).data = ['M'] from rfl, show ("m" : String).data = ['m'] from rfl]
    rw [replListAux_single 'M' ['m'] _ _ (Nat.le_refl _)]
    rw [List.flatMap_append, List.flatMap_cons, List.flatMap_cons, List.flatMap_append,
      flatMap_id_of _ _ (fun c hc => if_neg (digit_ne (hh c hc) (by decide))),
      flatMap_id_of _ _ (fun c hc => if_neg (digit_ne (hm c hc) (by decide)))]
    simp
  have hrhs : (hs ++ "h " ++ ms ++ "m").data = hs.data ++ 'h' :: ' ' :: (ms.data ++ ['m']) := by
    simp [String.data_append]
  unfold formatDuration
  rw [e1, e2, e3]
  exact (congrArg String.mk hrhs).symm

theorem formatDuration_hourOnly (hs : String) (hh : ∀ c ∈ hs.data, c.isDigit = true) :
    formatDuration ("PT" ++ hs ++ "H") = hs ++ "h " := by
  have hdata : ("PT" ++ hs ++ "H").data = 'P' :: 'T' :: (hs.data ++ ['H']) := by
    simp [String.data_append]
  have hrest : ∀ c ∈ hs.data ++ ['H'], c ≠ 'P' := by
    intro c hc
    simp only [List.mem_append, List.mem_cons] at hc
    rcases hc with hc | hc | hc
    · exact digit_ne (hh c hc) (by decide)
    · subst hc; decide
    · exact absurd hc (List.not_mem_nil c)
  have e1 : pyReplace ("PT" ++ hs ++ "H") "PT" "" = ⟨hs.data ++ ['H']⟩ := by
    apply congrArg String.mk
    rw [show ("PT" : String).data = ['P', 'T'] from rfl, show ("" : String).data = [] from rfl,
      hdata]
    exact replListAux_PT _ _ (by simp) hrest
  have e2 : pyReplace (⟨hs.data ++ ['H']⟩ : String) "H" "h "
      = ⟨hs.data ++ 'h' :: [' ']⟩ := by
    apply congrArg String.mk
    rw [show ("H" : String).data = ['H'] from rfl, show ("h " : String).data = ['h', ' '] from rfl]
    rw [replListAux_single 'H' ['h', ' '] _ _ (Nat.le_refl _)]
    rw [List.flatMap_append,
      flatMap_id_of _ _ (fun c hc => if_neg (digit_ne (hh c hc) (by decide)))]
    simp
  have e3 : pyReplace (⟨hs.data ++ 'h' :: [' ']⟩ : String) "M" "m"
      = ⟨hs.data ++ 'h' :: [' ']⟩ := by
    apply congrArg String.mk
    rw [show ("M" : String).data = ['M'] from rfl]
    apply replListAux_no_head 'M' [] _ _ _ (Nat.le_refl _)
    intro c hc
    simp only [List.mem_append, List.mem_cons] at hc
    rcases hc with hc | hc | hc
    · exact digit_ne (hh c hc) (by decide)
    · subst hc; decide
    · rcases hc with hc | hc
      · subst hc; decide
      · exact absurd hc (List.not_mem_nil c)
  have hrhs : (hs ++ "h ").data = hs.data ++ 'h' :: [' '] := by
    simp [String.data_append]
  unfold formatDuration
  rw [e1, e2, e3]
  exact (congrArg String.mk hrhs).symm

/-! ## Helper lemmas: offers and the tools -/

theorem parseOffer_ok_of_wf (o : Offer) (h : wfOffer o = true) :
    ∃ d, parseOffer o = Except.ok d := by
  unfold wfOffer at h
  match o with
  | ⟨some p, ⟨s :: _, some dur⟩ :: _⟩ =>
    match s with
    | ⟨some cc⟩ => exact ⟨_, rfl⟩
    | ⟨none⟩ => simp at h
  | ⟨none, _⟩ => simp at h
  | ⟨some _, []⟩ => simp at h
  | ⟨some _, ⟨[], _⟩ :: _⟩ => simp at h
  | ⟨some _, ⟨_ :: _, none⟩ :: _⟩ => simp at h

theorem parseOffers_ok_of_wf (offers : List Offer) (h : ∀ o ∈ offers, wfOffer o = true) :
    ∃ l : List FlightDict, parseOffers offers = Except.ok l ∧ l.length = offers.length := by
  induction offers with
  | nil => exact ⟨[], rfl, rfl⟩
  | cons o os ih =>
    obtain ⟨d, hd⟩ := parseOffer_ok_of_wf o (h o (List.mem_cons_self o os))
    obtain ⟨l, hl, hlen⟩ := ih (fun o' ho' => h o' (List.mem_cons_of_mem o ho'))
    refine ⟨d :: l, ?_, by simp [hlen]⟩
    rw [parseOffers, hd, hl]

theorem parseOffers_length :
    ∀ (offers : List Offer) (parsed : List FlightDict),
      parseOffers offers = Except.ok parsed → parsed.length = offers.length := by
  intro offers
  induction offers with
  | nil =>
    intro parsed h
    rw [parseOffers] at h
    injection h with h
    simp [← h]
  | cons o os ih =>
    intro parsed h
    rw [parseOffers] at h
    cases hd : parseOffer o with
    | error e => rw [hd] at h; exact absurd h (by simp)
    | ok d =>
      rw [hd] at h
      cases hl : parseOffers os with
      | error e => rw [hl] at h; exact absurd h (by simp)
      | ok l =>
        rw [hl] at h
        injection h with h
        rw [← h]
        simp [ih l hl]

theorem cityToIATA_never_raises (env : Env) (city : String) :
    isOkE (CityToIATATool_run env city).1 = true := by
  unfold CityToIATATool_run
  split
  · rfl
  · split
    · rfl
    · split
      · rfl
      · split
        · rfl
        · split <;> rfl

theorem poi_never_raises (env : Env) (city : String) :
    isOkE (POISearchTool_run env city).1 = true := by
  unfold POISearchTool_run
  split
  · rfl
  · split <;> rfl

theorem flightTool_ok_of_wf (env : Env) (dep arr sd ed : String)
    (hwf : ∀ body offers,
      env.flightApi (mkFlightQuery dep arr sd ed) = FlightApiOutcome.ok body →
      body.data = some offers → ∀ o ∈ offers, wfOffer o = true) :
    isOkE (FlightSearchTool_run env dep arr sd ed) = true := by
  unfold FlightSearchTool_run
  cases htok : env.amadeusToken with
  | error e => rfl
  | ok tok =>
    cases hresp : env.flightApi (mkFlightQuery dep arr sd ed) with
    | requestError e => rfl
    | ok body =>
      dsimp only
      cases hdata : body.data with
      | none => rfl
      | some offers =>
        obtain ⟨l, hl, _⟩ := parseOffers_ok_of_wf offers (hwf body offers hresp hdata)
        dsimp only
        rw [hl]
        cases l <;> rfl
/-! ## The claims -/

/-- Claim C1.  The claim states that for string-field requests `plan_trip`
always terminates normally with a populated `ItineraryPlan` (unless the
search key is missing).  The code disagrees: the condition at main.py:168 is
inverted (`... if isinstance(start_date, str) else 7`), so for the
documented string-typed dates the line evaluates `end_date - start_date` on
two `str` values and raises `TypeError`.  Here every provider is healthy,
the key is configured, and the repository's own demo request still raises. -/
theorem c1_plan_trip_raises_typeError :
    plan_trip envDemo "San Francisco" "Barcelona"
      (DateArg.str "2026-06-01") (DateArg.str "2026-06-08")
      = Except.error PyErr.typeError := by
  rfl

/-- Claim C2.  The claim states that when the Location Resolver returns a
failure sentinel, flight search is skipped and a plan with an empty flight
list is still produced.  The code disagrees: the sentinel
`"Could not find IATA code for … via search."` upper-cases to text containing
the standalone token `NOT`, which `_extract_iata_code` happily extracts, so
flight search proceeds with the garbage code `NOT` (here returning one
offer, hence a non-empty list), and no plan is produced at all because
`plan_trip` then raises `TypeError` at the trip-duration line. -/
theorem c2_sentinel_not_short_circuited :
    (CityToIATATool_run envC2 "New York").1
      = Except.ok "Could not find IATA code for New York via search." ∧
    extract_iata_code "Could not find IATA code for New York via search." = "NOT" ∧
    search_flights envC2 "New York" "London" "2026-05-10" "2026-05-17"
      = Except.ok [⟨"500.00", "UA", "10h 30m"⟩] ∧
    plan_trip envC2 "New York" "London" (DateArg.str "2026-05-10") (DateArg.str "2026-05-17")
      = Except.error PyErr.typeError :=
  ⟨rfl, rfl, rfl, rfl⟩

/-- Claim C3, counterexample.  The Flight Lookup Client does raise: the tool
only catches `requests.exceptions.RequestException`, so when the provider
responds successfully but an offer is missing its `price` field, the
`KeyError` raised at logistic_tools.py:69 escapes to the caller. -/
theorem c3_counterexample :
    FlightSearchTool_run envC3bad "JFK" "LHR" "2026-05-10" "2026-05-17"
      = Except.error PyErr.keyError ∧
    isOkE (FlightSearchTool_run envC3bad "JFK" "LHR" "2026-05-10" "2026-05-17") = false :=
  ⟨rfl, rfl⟩

/-- Claim C3, amended.  The Location Resolver and the POI Lookup Client never
raise (every branch after their key check sits inside `except Exception`),
and the Flight Lookup Client never raises provided every offer in a
successful response carries the fields the tool reads; auth failures,
transport failures and missing configuration are all returned in-band. -/
theorem c3_amended (env : Env) (dep arr sd ed city1 city2 : String)
    (hwf : ∀ body offers,
      env.flightApi (mkFlightQuery dep arr sd ed) = FlightApiOutcome.ok body →
      body.data = some offers → ∀ o ∈ offers, wfOffer o = true) :
    isOkE (FlightSearchTool_run env dep arr sd ed) = true ∧
    isOkE (CityToIATATool_run env city1).1 = true ∧
    isOkE (POISearchTool_run env city2).1 = true :=
  ⟨flightTool_ok_of_wf env dep arr sd ed hwf,
   cityToIATA_never_raises env city1, poi_never_raises env city2⟩

/-- Claim C3, witness: the amended theorem applied to a run whose flight call
fails at transport level. -/
theorem c3_amended_witness :
    isOkE (FlightSearchTool_run envC3wit "JFK" "LHR" "2026-05-10" "2026-05-17") = true ∧
    isOkE (CityToIATATool_run envC3wit "London").1 = true ∧
    isOkE (POISearchTool_run envC3wit "Paris").1 = true :=
  c3_amended envC3wit "JFK" "LHR" "2026-05-10" "2026-05-17" "London" "Paris"
    (fun _ _ h1 => absurd h1 (by simp [envC3wit]))

/-- Claim C4, counterexample.  The claim's own example fails on the
orchestrator's extractor (main.py:106): `_extract_iata_code` matches
against the upper-cased text, where `"The"` becomes the standalone token
`"THE"` and wins over `"JFK"`. -/
theorem c4_counterexample :
    extract_iata_code "The code is JFK airport" = "THE" ∧
    extract_iata_code "The code is JFK airport" ≠ "JFK" :=
  ⟨rfl, by decide⟩

/-- Claim C4, amended.  The Location Resolver's extractor
(`re.search(r'\b([A-Z]{3})\b', content)`, logistic_tools.py:109) returns
exactly the first standalone 3-uppercase-letter token of the raw text, and a
failure result when none exists — including the claim's two examples.  The
orchestrator-side extractor applies the same pattern to the upper-cased
stripped text, so on the first example it returns `"THE"` instead. -/
theorem c4_amended :
    (∀ s t : String, findIata s = some t ↔
       ∃ i, standalone3 s.data i ∧ (∀ j, j < i → ¬ standalone3 s.data j) ∧
            t = String.mk ((s.data.drop i).take 3)) ∧
    (∀ s : String, findIata s = none ↔ ∀ i, ¬ standalone3 s.data i) ∧
    findIata "The code is JFK airport" = some "JFK" ∧
    findIata "no codes here" = none ∧
    extract_iata_code "The code is JFK airport" = "THE" := by
  refine ⟨?_, ?_, by decide, by decide, rfl⟩
  · intro s t
    rw [findIata_eq_some_iff]
    constructor
    · rintro ⟨i, h1, h2, h3⟩
      exact ⟨i, code3At_iff.mp h1, fun j hj => code3At_false_iff.mp (h2 j hj), h3⟩
    · rintro ⟨i, h1, h2, h3⟩
      exact ⟨i, code3At_iff.mpr h1, fun j hj => code3At_false_iff.mpr (h2 j hj), h3⟩
  · intro s
    rw [findIata_eq_none_iff]
    constructor
    · intro h i
      exact code3At_false_iff.mp (h i)
    · intro h i
      exact code3At_false_iff.mpr (h i)

/-- Claim C5, counterexample.  The Location Resolver's extraction
(logistic_tools.py:109) is NOT case-invariant: it matches the raw content
without upper-casing, so `"the code is jfk"` yields no code while its
upper-cased form yields `"THE"`. -/
theorem c5_counterexample :
    findIata "the code is jfk" ≠ findIata (pyUpper "the code is jfk") := by
  decide

/-- Claim C5, amended.  Case-invariance holds for the orchestrator's
extractor (main.py:106), the one that actually compares against the
upper-cased text: for every input it returns the same result on `s` and on
`s.upper()`. -/
theorem c5_amended (s : String) : extract_iata_code s = extract_iata_code (pyUpper s) := by
  have hmk : ∀ l : List Char, (String.mk l).data = l := fun _ => rfl
  unfold extract_iata_code pyStrip pyUpper
  simp only [hmk, stripChars_map_upperChar, map_upperChar_idem]

/-- Claim C6.  The assembly step (main.py:181) truncates the POI text to its
first 500 characters plus a 3-character ellipsis (total exactly 503) when the
text is longer than 500 characters, and passes it through unchanged (no
ellipsis) when it is at most 500 characters. -/
theorem c6_poi_truncation (a td : String) (fl : List FlightDict) (poi : String) :
    (500 < poi.length →
       (assemble a td fl poi).poi_summary.data = poi.data.take 500 ++ ['.', '.', '.'] ∧
       (assemble a td fl poi).poi_summary.length = 503) ∧
    (poi.length ≤ 500 → (assemble a td fl poi).poi_summary = poi) := by
  have hlen : poi.length = poi.data.length := by cases poi; rfl
  constructor
  · intro h
    have hps : (assemble a td fl poi).poi_summary = pySlice poi 500 ++ "..." := by
      show truncPoi poi = _
      unfold truncPoi
      rw [if_pos h]
    constructor
    · rw [hps, String.data_append]
      rfl
    · rw [hps, String.length_append]
      have h1 : (pySlice poi 500).length = 500 := by
        show (poi.data.take 500).length = 500
        rw [List.length_take]
        omega
      rw [h1]
      rfl
  · intro h
    show truncPoi poi = poi
    unfold truncPoi
    rw [if_neg (by omega)]

/-- Claim C7.  The duration reformatter is the literal substitution
`PT`→empty, `H`→`"h "`, `M`→`"m"`: it sends `"PT10H30M"` to `"10h 30m"`,
sends `"PT5H"` to `"5h "` (trailing space, no minutes suffix), and on every
hours/minutes token built from digit strings it produces exactly the
substituted text. -/
theorem c7_duration_substitution :
    formatDuration "PT10H30M" = "10h 30m" ∧ formatDuration "PT5H" = "5h " ∧
    ∀ hs ms : String,
      (∀ c ∈ hs.data, c.isDigit = true) → (∀ c ∈ ms.data, c.isDigit = true) →
      formatDuration ("PT" ++ hs ++ "H" ++ ms ++ "M") = hs ++ "h " ++ ms ++ "m" ∧
      formatDuration ("PT" ++ hs ++ "H") = hs ++ "h " :=
  ⟨rfl, rfl,
   fun hs ms hh hm => ⟨formatDuration_token hs ms hh hm, formatDuration_hourOnly hs hh⟩⟩

/-- Claim C8.  With auth succeeded and a successful provider response: zero
offers (an empty `data` list or no `data` key) makes the tool return the
explicit no-offers message — a normal return, distinct from an error, that
the orchestrator's JSON parse turns into an empty list; and when the
provider returns more than 3 well-parsed offers, the tool returns all of
them in order and the assembled plan keeps exactly the first 3, in the
provider's order, with no re-sorting. -/
theorem c8_flight_offers (env : Env) (dep arr sd ed city td poi tok : String)
    (body : FlightBody)
    (htok : env.amadeusToken = Except.ok tok)
    (hresp : env.flightApi (mkFlightQuery dep arr sd ed) = FlightApiOutcome.ok body) :
    (body.data = some [] ∨ body.data = none →
       FlightSearchTool_run env dep arr sd ed
         = Except.ok (FlightToolResult.message noOffersMsg) ∧
       loadsToolResult (FlightToolResult.message noOffersMsg) = []) ∧
    (∀ offers parsed, body.data = some offers → parseOffers offers = Except.ok parsed →
       3 < offers.length →
       FlightSearchTool_run env dep arr sd ed = Except.ok (FlightToolResult.offers parsed) ∧
       parsed.length = offers.length ∧
       (assemble city td parsed poi).flights = (parsed.take 3).map flightOptionOfDict ∧
       (assemble city td parsed poi).flights.length = 3) := by
  have hrun : FlightSearchTool_run env dep arr sd ed =
      (match (match body.data with
              | none => Except.ok []
              | some data => parseOffers data : Except PyErr (List FlightDict)) with
       | Except.error e => Except.error e
       | Except.ok [] => Except.ok (FlightToolResult.message noOffersMsg)
       | Except.ok offers => Except.ok (FlightToolResult.offers offers)) := by
    unfold FlightSearchTool_run
    rw [htok, hresp]
  constructor
  · intro hcase
    rcases hcase with hc | hc <;> rw [hrun, hc] <;> exact ⟨rfl, rfl⟩
  · intro offers parsed h1 h2 h3
    have hplen := parseOffers_length offers parsed h2
    rw [hrun, h1]
    dsimp only
    rw [h2]
    cases parsed with
    | nil =>
      simp only [List.length_nil] at hplen
      omega
    | cons p ps =>
      refine ⟨rfl, hplen, rfl, ?_⟩
      show (((p :: ps).take 3).map flightOptionOfDict).length = 3
      rw [List.length_map, List.length_take]
      have : (p :: ps).length = offers.length := hplen
      simp only [List.length_cons] at this
      omega

/-- Claim C8, witness: the theorem applied to a run whose provider returns
the four well-formed offers of `offers4`. -/
theorem c8_flight_offers_witness :
    FlightSearchTool_run envC8 "JFK" "LHR" "2026-05-10" "2026-05-17"
      = Except.ok (FlightToolResult.offers parsed4) ∧
    parsed4.length = offers4.length ∧
    (assemble "London" "2026-05-10 to 2026-05-17" parsed4 "POI text").flights
      = (parsed4.take 3).map flightOptionOfDict ∧
    (assemble "London" "2026-05-10 to 2026-05-17" parsed4 "POI text").flights.length = 3 :=
  (c8_flight_offers envC8 "JFK" "LHR" "2026-05-10" "2026-05-17" "London"
    "2026-05-10 to 2026-05-17" "POI text" "token" ⟨some offers4⟩ rfl rfl).2
    offers4 parsed4 rfl rfl (by decide)

/-- Claim C9.  When the search-provider key is absent (or empty, which
Python's truthiness also treats as missing), both Tavily-backed tools return
their explicit key-missing message and issue no search call at all. -/
theorem c9_missing_key (env : Env) (city1 city2 : String)
    (hkey : truthy env.tavilyKey = false) :
    (CityToIATATool_run env city1).1
      = Except.ok "TAVILY_API_KEY is missing. Cannot perform IATA lookup." ∧
    (CityToIATATool_run env city1).2 = [] ∧
    (POISearchTool_run env city2).1
      = Except.ok "TAVILY_API_KEY is missing. Cannot perform POI search." ∧
    (POISearchTool_run env city2).2 = [] := by
  unfold CityToIATATool_run POISearchTool_run
  rw [hkey]
  exact ⟨rfl, rfl, rfl, rfl⟩

/-- Claim C9, witness: the theorem applied to the run with no key
configured. -/
theorem c9_missing_key_witness :
    (CityToIATATool_run envNoKey "London").1
      = Except.ok "TAVILY_API_KEY is missing. Cannot perform IATA lookup." ∧
    (CityToIATATool_run envNoKey "London").2 = [] ∧
    (POISearchTool_run envNoKey "Paris").1
      = Except.ok "TAVILY_API_KEY is missing. Cannot perform POI search." ∧
    (POISearchTool_run envNoKey "Paris").2 = [] :=
  c9_missing_key envNoKey "London" "Paris" rfl

/-- Claim C10.  When the search provider responds successfully with an empty
result list, the POI Lookup Client returns exactly the header line
`"Web Search Results for POIs:\n"` — a normal return, not a failure
sentinel — and the assembly step passes this 29-character string into
`poi_summary` unchanged. -/
theorem c10_poi_empty_results (env : Env) (city : String)
    (hkey : truthy env.tavilyKey = true)
    (hresp : env.search (poiSearchArgs city) = Except.ok ⟨[]⟩) :
    (POISearchTool_run env city).1 = Except.ok "Web Search Results for POIs:\n" ∧
    ∀ a td fl, (assemble a td fl "Web Search Results for POIs:\n").poi_summary
        = "Web Search Results for POIs:\n" := by
  constructor
  · unfold POISearchTool_run
    rw [hkey, hresp]
    rfl
  · intro a td fl
    rfl

/-- Claim C10, witness: the theorem applied to a run whose search provider
returns zero results. -/
theorem c10_poi_empty_results_witness :
    (POISearchTool_run envC10 "Paris").1 = Except.ok "Web Search Results for POIs:\n" ∧
    (assemble "Paris" "2026-05-10 to 2026-05-17" [] "Web Search Results for POIs:\n").poi_summary
      = "Web Search Results for POIs:\n" :=
  ⟨(c10_poi_empty_results envC10 "Paris" rfl rfl).1,
   (c10_poi_empty_results envC10 "Paris" rfl rfl).2 "Paris" "2026-05-10 to 2026-05-17" []⟩

end TravelAgent
